import Mathlib

/-!
Shallow embedding of the video-player-plus application (a browser-based media
player with AI studios) and proofs about its handlers.

Sources embedded:
- `src/types.ts` — the shared data model (`MediaItem`, `ViewMode`, configs) and
  the Gemini service layer (`generateSpeech`, `generateVeoVideo`, `generateImage`,
  `editImage`), whose external calls are modelled by explicit outcome values.
- `src/components/Player.tsx` — `handleTimeUpdate` (AB-loop and subtitle
  synchronisation), `adjustVolume`, `captureFrame`.
- `src/components/ImageStudio.tsx` — `handleAction`.
- The concatenated `src/components/LiveView.tsx` bundle — `VeoStudio.handleGenerate`,
  `GeminiAssistant.handleSend` / `handleSpeak`, and the `App` component's
  `handleUpload`, `handleAddStream`, `addToPlaylist`, `handleCaptureContext`.

Modelling conventions: machine floats used for media times and volumes are
embedded as rationals (`ℚ`); DOM/SDK effects (object-URL allocation, JPEG
encoding, id generation, network fetches) are passed in as explicit function
parameters or outcome values; the browser `null` is `Option.none`.
-/

/-- `ViewMode` from `src/types.ts`. -/
inductive ViewMode
  | PLAYER
  | VEO_STUDIO
  | IMAGE_STUDIO
  | LIVE
  deriving DecidableEq

/-- The `'video' | 'audio' | 'image'` union used by `MediaItem.type`. -/
inductive MediaType
  | video
  | audio
  | image
  deriving DecidableEq

/-- `MediaItem` from `src/types.ts` (the `duration` field is never written by the
code under consideration and is omitted). -/
structure MediaItem where
  id : String
  name : String
  url : String
  type : MediaType
  mimeType : Option String := none
  isStream : Option Bool := none
  deriving DecidableEq

/-- A user-selected file as seen by `handleUpload`: its `name` and MIME `type`. -/
structure UploadFile where
  name : String
  mimeType : String
  deriving DecidableEq

/-- The MIME-prefix dispatch inside `App.handleUpload`:
`file.type.startsWith('video') ? 'video' : file.type.startsWith('audio') ? 'audio' : 'image'`. -/
def mediaTypeOfMime (mime : String) : MediaType :=
  if mime.startsWith "video" then MediaType.video
  else if mime.startsWith "audio" then MediaType.audio
  else MediaType.image

/-- The state of the `App` component: current view, playlist, selected media id. -/
structure AppState where
  currentView : ViewMode
  playlist : List MediaItem
  currentMediaId : Option String
  deriving DecidableEq

/-- One playlist entry built by `App.handleUpload` for the `i`-th uploaded file.
`genId` models `generateId()` (one fresh id per file) and `cou` models
`URL.createObjectURL`. -/
def uploadedItem (genId : Nat → String) (cou : UploadFile → String)
    (i : Nat) (f : UploadFile) : MediaItem :=
  { id := genId i
    name := f.name
    url := cou f
    type := mediaTypeOfMime f.mimeType
    mimeType := some f.mimeType }

/-- `Array.from(files).map(...)` inside `App.handleUpload`, with the running
index `i` feeding the id generator. -/
def uploadItems (genId : Nat → String) (cou : UploadFile → String) :
    Nat → List UploadFile → List MediaItem
  | _, [] => []
  | i, f :: fs => uploadedItem genId cou i f :: uploadItems genId cou (i + 1) fs

/-- `App.handleUpload`: appends the new items to the playlist
(`setPlaylist(prev => [...prev, ...newItems])`); if no media was selected and at
least one file was uploaded, selects the first new item and switches to the
player view. -/
def handleUpload (genId : Nat → String) (cou : UploadFile → String)
    (files : List UploadFile) (s : AppState) : AppState :=
  let newItems := uploadItems genId cou 0 files
  match newItems, s.currentMediaId with
  | first :: _, none =>
      { currentView := ViewMode.PLAYER
        playlist := s.playlist ++ newItems
        currentMediaId := some first.id }
  | _, _ => { s with playlist := s.playlist ++ newItems }

/-- `App.handleAddStream`: builds a stream item named after the current playlist
length, prepends it (`setPlaylist(prev => [newItem, ...prev])`), selects it and
switches to the player view. `genId` models `generateId()`. -/
def handleAddStream (genId : String) (url : String) (s : AppState) : AppState :=
  let newItem : MediaItem :=
    { id := genId
      name := "Stream " ++ toString (s.playlist.length + 1)
      url := url
      type := MediaType.video
      isStream := some true }
  { currentView := ViewMode.PLAYER
    playlist := newItem :: s.playlist
    currentMediaId := some newItem.id }

/-- `App.addToPlaylist`: prepends a generated item
(`setPlaylist(prev => [newItem, ...prev])`) and touches nothing else.
In the source `type` ranges over `'video' | 'image'`. -/
def addToPlaylist (genId : String) (url : String) (nm : String)
    (t : MediaType) (s : AppState) : AppState :=
  { s with
      playlist :=
        { id := genId, name := nm, url := url, type := t } :: s.playlist }

/- ### Helper lemmas about `uploadItems` -/

lemma uploadItems_length (genId : Nat → String) (cou : UploadFile → String) :
    ∀ (k : Nat) (files : List UploadFile),
      (uploadItems genId cou k files).length = files.length := by
  intro k files
  induction files generalizing k with
  | nil => rfl
  | cons f fs ih => simp [uploadItems, ih]

lemma uploadItems_get? (genId : Nat → String) (cou : UploadFile → String) :
    ∀ (k i : Nat) (files : List UploadFile),
      (uploadItems genId cou k files).get? i =
        (files.get? i).map (uploadedItem genId cou (k + i)) := by
  intro k i files
  induction files generalizing k i with
  | nil => simp [uploadItems]
  | cons f fs ih =>
      cases i with
      | zero => simp [uploadItems]
      | succ j =>
          simp only [uploadItems, List.get?]
          rw [ih (k + 1) j]
          have : k + 1 + j = k + (j + 1) := by omega
          rw [this]

lemma handleUpload_playlist (genId : Nat → String) (cou : UploadFile → String)
    (files : List UploadFile) (s : AppState) :
    (handleUpload genId cou files s).playlist =
      s.playlist ++ uploadItems genId cou 0 files := by
  unfold handleUpload
  cases h : uploadItems genId cou 0 files with
  | nil => cases s.currentMediaId <;> simp [h]
  | cons a l => cases s.currentMediaId <;> simp [h]

/- ### Player component (`src/components/Player.tsx`) -/

/-- The `loop` state of the player:
`{ a: number | null, b: number | null, active: boolean }`. -/
structure LoopState where
  a : Option ℚ
  b : Option ℚ
  active : Bool
  deriving DecidableEq

/-- One parsed subtitle cue `{start, end, text}` (times in milliseconds; the
source field `end` is a Lean keyword and is embedded as `stop`). -/
structure Cue where
  start : ℤ
  stop : ℤ
  text : String
  deriving DecidableEq

/-- The predicate tested by `subtitles.find` in `handleTimeUpdate`:
`ct * 1000 >= (s.start + subtitleOffset) && ct * 1000 <= (s.end + subtitleOffset)`. -/
def cueMatches (off : ℤ) (ct : ℚ) (c : Cue) : Bool :=
  decide (((c.start + off : ℤ) : ℚ) ≤ ct * 1000) &&
    decide (ct * 1000 ≤ ((c.stop + off : ℤ) : ℚ))

/-- The slice of the `Player` component state read and written by
`handleTimeUpdate`. -/
structure PlayerState where
  currentTime : ℚ
  progress : ℚ
  duration : ℚ
  loop : LoopState
  subtitles : List Cue
  subtitleOffset : ℤ
  subtitleText : String
  deriving DecidableEq

/-- The loop check inside `handleTimeUpdate`:
`if (loop.active && loop.b !== null && loop.a !== null) { if (ct >= loop.b) currentTime = loop.a }`. -/
def loopTarget (loop : LoopState) (ct : ℚ) : ℚ :=
  match loop.active, loop.b, loop.a with
  | true, some b, some a => if ct ≥ b then a else ct
  | _, _, _ => ct

/-- `Player.handleTimeUpdate`: records progress and duration
(`videoRef.current.duration || 0` — a missing duration reads as `0`), applies
the AB-loop check to the media element current time, and recomputes the
displayed subtitle from the first matching cue. -/
def handleTimeUpdate (s : PlayerState) (mediaDuration : Option ℚ) : PlayerState :=
  let ct := s.currentTime
  { s with
      progress := ct
      duration := mediaDuration.getD 0
      currentTime := loopTarget s.loop ct
      subtitleText :=
        match s.subtitles.find? (cueMatches s.subtitleOffset ct) with
        | some c => c.text
        | none => "" }

/-- The audio-volume state touched by `Player.adjustVolume`: the React `volume`
state, the media element native `volume`, and the Web Audio gain node value.
Initially `useState(1)`, element volume `1`, gain node created with value `1`. -/
structure AudioState where
  volume : ℚ
  elementVolume : ℚ
  gain : ℚ
  deriving DecidableEq

/-- `Player.adjustVolume(delta)`: clamps the stored volume into `[0, 2]`, sets
the media element volume to `min(1, newVol)` and the gain node to
`max(1, newVol)` (both refs assumed mounted, as in the connected player). -/
def adjustVolume (s : AudioState) (delta : ℚ) : AudioState :=
  let newVol := max 0 (min 2 (s.volume + delta))
  { volume := newVol
    elementVolume := min 1 newVol
    gain := max 1 newVol }

/-- The initial audio state: `useState(1)` for volume, native element volume 1,
gain node value 1. -/
def initAudioState : AudioState :=
  { volume := 1, elementVolume := 1, gain := 1 }

/-- A sequence of `adjustVolume` calls from the initial state. -/
def runVolume (deltas : List ℚ) : AudioState :=
  deltas.foldl adjustVolume initAudioState

/-- The mounted `<video>` element as seen by `captureFrame` (dimensions plus an
abstract current frame, which the JPEG encoder parameter consumes). -/
structure VideoElement where
  videoWidth : Nat
  videoHeight : Nat
  deriving DecidableEq

/-- The `media?.type !== 'video'` test in `captureFrame`. -/
def isVideoMedia : Option MediaItem → Bool
  | some m => decide (m.type = MediaType.video)
  | none => false

/-- `Player.captureFrame`: returns `null` when the video ref is unmounted or the
current media is not a video; otherwise draws the frame on a canvas and returns
`canvas.toDataURL('image/jpeg')` — modelled by `toJpegDataURL` — unless the 2D
context is unavailable, in which case it returns `null`. -/
def captureFrame (videoEl : Option VideoElement) (media : Option MediaItem)
    (ctx2dAvailable : Bool) (toJpegDataURL : VideoElement → String) :
    Option String :=
  match videoEl with
  | none => none
  | some v =>
      if isVideoMedia media = false then none
      else if ctx2dAvailable then some (toJpegDataURL v)
      else none

/-- `App.handleCaptureContext`: asks the player for a frame only when the player
view is shown and the player ref is mounted; otherwise `null`. -/
def handleCaptureContext (currentView : ViewMode) (playerMounted : Bool)
    (videoEl : Option VideoElement) (media : Option MediaItem)
    (ctx2dAvailable : Bool) (toJpegDataURL : VideoElement → String) :
    Option String :=
  if currentView = ViewMode.PLAYER ∧ playerMounted = true then
    captureFrame videoEl media ctx2dAvailable toJpegDataURL
  else none

/- ### Gemini service layer (`src/types.ts`, second part) -/

/-- The outcome of one awaited external SDK call: it either resolves with a
value or rejects (throws) with an error message. -/
inductive CallOutcome (α : Type)
  | ok (res : α)
  | error (msg : String)
  deriving DecidableEq

/-- JavaScript `a || b` on strings: the fallback is used exactly when the first
operand is the empty string (the only falsy string). -/
def jsOr (a b : String) : String :=
  if a = "" then b else a

/-- `generateSpeech` from `src/types.ts`: on a resolved response it returns the
decoded audio when `candidates[0].content.parts[0].inlineData.data` is present
and `null` otherwise; a rejection is caught inside the function, logged with
`console.error("TTS failed", e)`, and turned into `null`. The `atob` +
`Uint8Array` byte conversion is abstracted as the identity on the carried audio
payload. -/
def generateSpeech {α : Type} (outcome : CallOutcome (Option α)) : Option α :=
  match outcome with
  | CallOutcome.ok (some audioData) => some audioData
  | CallOutcome.ok none => none
  | CallOutcome.error _ => none

/-- The video-generation operation object polled by `generateVeoVideo`: its
`done` flag and the flattened `response?.generatedVideos?.[0]?.video?.uri`. -/
structure VeoOperation where
  done : Bool
  responseUri : Option String
  deriving DecidableEq

/-- The observable suspension events of the poll loop: a timer wait of `ms`
milliseconds, or one `getVideosOperation` re-query. -/
inductive PollEvent
  | wait (ms : Nat)
  | query
  deriving DecidableEq

/-- The `while (!operation.done)` loop of `generateVeoVideo`: each iteration
awaits `setTimeout(..., 5000)` and then re-queries the operation. `next k` is
the operation returned by the `k`-th re-query; `fuel` bounds the number of
iterations so the embedding stays total, with `none` meaning the loop has not
terminated within `fuel` iterations. -/
def pollLoop (next : Nat → VeoOperation) :
    Nat → VeoOperation → Nat → Option (VeoOperation × List PollEvent)
  | _, op, 0 => if op.done then some (op, []) else none
  | k, op, fuel + 1 =>
      if op.done then some (op, [])
      else
        match pollLoop next (k + 1) (next k) fuel with
        | some (final, evs) =>
            some (final, PollEvent.wait 5000 :: PollEvent.query :: evs)
        | none => none

/-- The event trace of `n` poll iterations: each re-query preceded by exactly
one five-second wait. -/
def pollTrace : Nat → List PollEvent
  | 0 => []
  | n + 1 => PollEvent.wait 5000 :: PollEvent.query :: pollTrace n

/-- The tail of `generateVeoVideo` after the poll loop: reads the video URI from
the completed operation; when present, fetches `uri&key=API_KEY` and returns
`URL.createObjectURL(blob)`; otherwise returns `null`. The first component
records the list of URLs fetched. `fetchBlob` models `fetch`/`res.blob()` and
`cou` models `URL.createObjectURL`. -/
def finishVideo {β : Type} (apiKey : String) (fetchBlob : String → β)
    (cou : β → String) (op : VeoOperation) : List String × Option String :=
  match op.responseUri with
  | some uri =>
      let fetchUrl := uri ++ "&key=" ++ apiKey
      ([fetchUrl], some (cou (fetchBlob fetchUrl)))
  | none => ([], none)

/-- The whole `generateVeoVideo` run after the initial `generateVideos` call
returned `op0`: poll until done, then retrieve the result. Returns the final
operation, the suspension-event trace, the fetched URLs and the returned value
(`none` means the poll loop did not finish within `fuel` iterations). -/
def generateVeoVideoRun {β : Type} (next : Nat → VeoOperation)
    (op0 : VeoOperation) (fuel : Nat) (apiKey : String)
    (fetchBlob : String → β) (cou : β → String) :
    Option (VeoOperation × List PollEvent × List String × Option String) :=
  match pollLoop next 0 op0 fuel with
  | some (final, evs) =>
      let fr := finishVideo apiKey fetchBlob cou final
      some (final, evs, fr.1, fr.2)
  | none => none

/- ### Image Studio (`src/components/ImageStudio.tsx`) -/

/-- The `activeTab` of the Image Studio. -/
inductive ImageTab
  | generate
  | edit
  deriving DecidableEq

/-- The `ImageConfig` fields read by `handleAction` (the user-facing aspect
ratio and size selectors), as raw strings. -/
structure ImageConfig where
  aspect : String
  size : String
  deriving DecidableEq

/-- The `ImageStudio` component state touched by `handleAction`. -/
structure ImageStudioState where
  prompt : String
  isProcessing : Bool
  activeTab : ImageTab
  selectedImageForEdit : Option String
  error : Option String
  config : ImageConfig
  deriving DecidableEq

/-- A generation request issued by the Image Studio: `generateImage(prompt,
aspectRatio, size)` or `editImage(image, prompt)`. -/
inductive ImageRequest
  | generate (prompt : String) (aspect : String) (size : String)
  | edit (image : String) (prompt : String)
  deriving DecidableEq

/-- `ImageStudio.handleAction`, as the net effect of one click once the awaited
work has settled. Returns the final component state, the list of generation
requests issued, and the `onImageGenerated(url, name)` callback invocations.
The source guards with `if (!prompt) return;`, sets `isProcessing`/`error`,
issues the request for the active tab, fires the callback on a non-null result,
throws `"Failed to process image."` on a null result and
`"Please select an image to edit first."` when editing without a source image;
every throw is caught and stored via `setError(err.message || "Operation failed.")`,
and `finally` clears `isProcessing`. The `window.aistudio` key-selection probe
touches no component state and is not modelled. -/
def handleAction (s : ImageStudioState) (outcome : CallOutcome (Option String)) :
    ImageStudioState × List ImageRequest × List (String × String) :=
  if s.prompt = "" then (s, [], [])
  else
    match s.activeTab with
    | ImageTab.generate =>
        let req := ImageRequest.generate s.prompt s.config.aspect s.config.size
        match outcome with
        | CallOutcome.error msg =>
            ({ s with error := some (jsOr msg "Operation failed.")
                      isProcessing := false }, [req], [])
        | CallOutcome.ok (some url) =>
            ({ s with error := none
                      isProcessing := false
                      selectedImageForEdit := some url },
             [req], [(url, "Gen: " ++ s.prompt)])
        | CallOutcome.ok none =>
            ({ s with error := some "Failed to process image."
                      isProcessing := false }, [req], [])
    | ImageTab.edit =>
        match s.selectedImageForEdit with
        | none =>
            ({ s with error := some "Please select an image to edit first."
                      isProcessing := false }, [], [])
        | some img =>
            let req := ImageRequest.edit img s.prompt
            match outcome with
            | CallOutcome.error msg =>
                ({ s with error := some (jsOr msg "Operation failed.")
                          isProcessing := false }, [req], [])
            | CallOutcome.ok (some url) =>
                ({ s with error := none
                          isProcessing := false },
                 [req], [(url, "Edit: " ++ s.prompt)])
            | CallOutcome.ok none =>
                ({ s with error := some "Failed to process image."
                          isProcessing := false }, [req], [])

/- ### Veo Studio (`VeoStudio` in the LiveView.tsx bundle) -/

/-- The `VeoConfig` fields read by `handleGenerate`, as raw strings. -/
structure VeoConfig where
  aspect : String
  resolution : String
  deriving DecidableEq

/-- The `VeoStudio` component state touched by `handleGenerate`. -/
structure VeoStudioState where
  prompt : String
  isGenerating : Bool
  error : Option String
  inputImage : Option String
  config : VeoConfig
  deriving DecidableEq

/-- One `generateVeoVideo(prompt, aspectRatio, resolution, inputImage)` request. -/
structure VeoRequest where
  prompt : String
  aspect : String
  resolution : String
  inputImage : Option String
  deriving DecidableEq

/-- `VeoStudio.handleGenerate`, as the net effect of one click once the awaited
work has settled. The source guards with `if (!prompt && !inputImage) return;`,
issues the request, fires `onVideoGenerated(videoUrl, prompt || 'Image to Video')`
on a non-null result, throws `"Failed to retrieve video URL."` on a null result;
throws are caught and stored via `setError(err.message || "An unexpected error
occurred.")`, and `finally` clears `isGenerating`. The `window.aistudio`
key-selection probe touches no component state and is not modelled. -/
def handleGenerate (s : VeoStudioState) (outcome : CallOutcome (Option String)) :
    VeoStudioState × List VeoRequest × List (String × String) :=
  if s.prompt = "" ∧ s.inputImage = none then (s, [], [])
  else
    let req : VeoRequest :=
      { prompt := s.prompt
        aspect := s.config.aspect
        resolution := s.config.resolution
        inputImage := s.inputImage }
    match outcome with
    | CallOutcome.error msg =>
        ({ s with error := some (jsOr msg "An unexpected error occurred.")
                  isGenerating := false }, [req], [])
    | CallOutcome.ok (some url) =>
        ({ s with error := none
                  isGenerating := false },
         [req], [(url, jsOr s.prompt "Image to Video")])
    | CallOutcome.ok none =>
        ({ s with error := some "Failed to retrieve video URL."
                  isGenerating := false }, [req], [])

/- ### Gemini assistant chat (`GeminiAssistant` in the LiveView.tsx bundle) -/

/-- The `'user' | 'model'` role of a chat message. -/
inductive Role
  | user
  | model
  deriving DecidableEq

/-- `ChatMessage` from `src/types.ts` (the transient `isLoading` flag is never
set by the assistant and is omitted). -/
structure ChatMessage where
  id : String
  role : Role
  text : String
  timestamp : Nat
  images : Option (List String) := none
  deriving DecidableEq

/-- The `GeminiAssistant` component state touched by `handleSend` and
`handleSpeak`. -/
structure ChatState where
  messages : List ChatMessage
  input : String
  isThinking : Bool
  contextImage : Option String
  playingMessageId : Option String
  deriving DecidableEq

/-- The apology message text appended when `sendMessageToChat` throws. -/
def chatErrorText : String :=
  "Sorry, I encountered an error processing your request."

/-- The user message built at the top of `handleSend` (`now1` models the
`Date.now()` captured there). -/
def userMsgOf (now1 : Nat) (s : ChatState) : ChatMessage :=
  { id := toString now1
    role := Role.user
    text := s.input
    timestamp := now1
    images := s.contextImage.map (fun img => [img]) }

/-- `GeminiAssistant.handleSend`, as the net effect of one send once the awaited
chat call has settled. Guarded by
`if ((!input.trim() && !contextImage) || !chatSession) return;`. On success the
model reply is appended (`now2` models the `Date.now()` of the reply
construction; its id is `(now2 + 1).toString()`); on a throw the apology
message (id `now2.toString()`) is appended. The input and the context image are
cleared before awaiting, and `finally` clears `isThinking`. The second
component lists the message payloads sent to the chat service
(`userMsg.text || "Analyze this image"`). -/
def handleSend (now1 now2 : Nat) (hasSession : Bool) (s : ChatState)
    (outcome : CallOutcome String) : ChatState × List String :=
  if (s.input.trim = "" ∧ s.contextImage = none) ∨ hasSession = false then
    (s, [])
  else
    let userMsg := userMsgOf now1 s
    let sent := jsOr s.input "Analyze this image"
    match outcome with
    | CallOutcome.ok responseText =>
        ({ s with
            messages := s.messages ++
              [userMsg,
               { id := toString (now2 + 1)
                 role := Role.model
                 text := responseText
                 timestamp := now2 }]
            input := ""
            contextImage := none
            isThinking := false }, [sent])
    | CallOutcome.error _ =>
        ({ s with
            messages := s.messages ++
              [userMsg,
               { id := toString now2
                 role := Role.model
                 text := chatErrorText
                 timestamp := now2 }]
            input := ""
            contextImage := none
            isThinking := false }, [sent])

/-- `GeminiAssistant.handleSpeak`, as the net effect of one click once
`generateSpeech` has settled. Re-entrant clicks on the already-playing message
are ignored; a non-null audio buffer leaves the message marked as playing (the
`onended` callback clears it later); a null buffer — including the case where
`generateSpeech` caught a rejection internally — resets `playingMessageId` to
`null` and changes nothing else; playback-pipeline throws are likewise caught,
logged, and reset the indicator. -/
def handleSpeak {α : Type} (s : ChatState) (msg : ChatMessage)
    (speechOutcome : CallOutcome (Option α)) : ChatState :=
  if s.playingMessageId = some msg.id then s
  else
    match generateSpeech speechOutcome with
    | some _ => { s with playingMessageId := some msg.id }
    | none => { s with playingMessageId := none }

/- ### Claim C3 and C10: playlist growth -/

/-- Claim C3 (confirmed): for every non-empty file list passed to
`App.handleUpload`, the playlist grows by exactly one entry per file, the
existing entries are unchanged, and the appended suffix lists the uploaded
files in order, each entry carrying a fresh id, the file name, the object URL
of the file, and the kind derived from the MIME type. -/
theorem c3_upload_adds_one_entry_per_file
    (genId : Nat → String) (cou : UploadFile → String)
    (files : List UploadFile) (s : AppState) (hne : files ≠ []) :
    (handleUpload genId cou files s).playlist.length
        = s.playlist.length + files.length
    ∧ (handleUpload genId cou files s).playlist.take s.playlist.length
        = s.playlist
    ∧ (handleUpload genId cou files s).playlist.drop s.playlist.length
        = uploadItems genId cou 0 files
    ∧ ∀ i f, files.get? i = some f →
        (uploadItems genId cou 0 files).get? i
          = some (uploadedItem genId cou i f) := by
  refine ⟨?_, ?_, ?_, ?_⟩
  · rw [handleUpload_playlist, List.length_append, uploadItems_length]
  · rw [handleUpload_playlist, List.take_left]
  · rw [handleUpload_playlist, List.drop_left]
  · intro i f hf
    rw [uploadItems_get? genId cou 0 i files, hf]
    simp [Nat.zero_add]

/-- Witness for C3 at a concrete two-file upload into a one-item playlist. -/
def c3OldItem : MediaItem :=
  { id := "old", name := "old.mp3", url := "blob:old", type := MediaType.audio }

/-- Concrete app state for the C3 witness. -/
def c3AppState : AppState :=
  { currentView := ViewMode.PLAYER
    playlist := [c3OldItem]
    currentMediaId := some "old" }

/-- Concrete uploaded files for the C3 witness. -/
def c3Files : List UploadFile :=
  [{ name := "a.mp4", mimeType := "video/mp4" },
   { name := "b.png", mimeType := "image/png" }]

/-- Witness theorem for C3. -/
theorem c3_witness :
    (handleUpload (fun i => toString i) (fun f => "blob:" ++ f.name)
        c3Files c3AppState).playlist.length
      = c3AppState.playlist.length + c3Files.length
    ∧ (handleUpload (fun i => toString i) (fun f => "blob:" ++ f.name)
        c3Files c3AppState).playlist.take c3AppState.playlist.length
      = c3AppState.playlist
    ∧ (handleUpload (fun i => toString i) (fun f => "blob:" ++ f.name)
        c3Files c3AppState).playlist.drop c3AppState.playlist.length
      = uploadItems (fun i => toString i) (fun f => "blob:" ++ f.name) 0 c3Files
    ∧ ∀ i f, c3Files.get? i = some f →
        (uploadItems (fun i => toString i) (fun f => "blob:" ++ f.name)
            0 c3Files).get? i
          = some (uploadedItem (fun i => toString i)
              (fun f => "blob:" ++ f.name) i f) :=
  c3_upload_adds_one_entry_per_file (fun i => toString i)
    (fun f => "blob:" ++ f.name) c3Files c3AppState (by decide)

/-- Claim C10 (confirmed): `App.addToPlaylist` prepends the generated item at
the head of the playlist and leaves every existing entry, the selected media id
and the current view unchanged; `App.handleAddStream` likewise prepends its new
stream item; file upload, by contrast, appends. -/
theorem c10_generated_items_prepend (gid url nm : String) (t : MediaType)
    (s : AppState) (sid surl : String) (genId : Nat → String)
    (cou : UploadFile → String) (files : List UploadFile) :
    (addToPlaylist gid url nm t s).playlist
        = { id := gid, name := nm, url := url, type := t } :: s.playlist
    ∧ (addToPlaylist gid url nm t s).currentMediaId = s.currentMediaId
    ∧ (addToPlaylist gid url nm t s).currentView = s.currentView
    ∧ (handleAddStream sid surl s).playlist
        = { id := sid, name := "Stream " ++ toString (s.playlist.length + 1),
            url := surl, type := MediaType.video,
            isStream := some true } :: s.playlist
    ∧ (handleUpload genId cou files s).playlist
        = s.playlist ++ uploadItems genId cou 0 files :=
  ⟨rfl, rfl, rfl, rfl, handleUpload_playlist genId cou files s⟩

/- ### Claim C4: AB-loop playback control -/

/-- Claim C4 (confirmed): in every `handleTimeUpdate` step, when the loop is
active with both endpoints set and the current time is at or past `b`, the
current time is reset to `a`; when the loop is inactive or an endpoint is
unset, the step leaves the current time untouched. -/
theorem c4_ab_loop (s : PlayerState) (d : Option ℚ) :
    (∀ a b, s.loop.active = true → s.loop.a = some a → s.loop.b = some b →
        s.currentTime ≥ b → (handleTimeUpdate s d).currentTime = a)
    ∧ ((s.loop.active = false ∨ s.loop.a = none ∨ s.loop.b = none) →
        (handleTimeUpdate s d).currentTime = s.currentTime) := by
  constructor
  · intro a b hact ha hb hge
    simp [handleTimeUpdate, loopTarget, hact, ha, hb, hge]
  · intro h
    rcases h with h | h | h
    · simp [handleTimeUpdate, loopTarget, h]
    · cases hact : s.loop.active <;> cases hb : s.loop.b <;>
        simp [handleTimeUpdate, loopTarget, h, hact, hb]
    · cases hact : s.loop.active <;>
        simp [handleTimeUpdate, loopTarget, h, hact]

/-- Concrete player state for the C4 witness: active loop `[1, 2]`, current
time `3`. -/
def c4StateA : PlayerState :=
  { currentTime := 3, progress := 0, duration := 0
    loop := { a := some 1, b := some 2, active := true }
    subtitles := [], subtitleOffset := 0, subtitleText := "" }

/-- Concrete player state for the C4 witness: same endpoints, loop inactive. -/
def c4StateB : PlayerState :=
  { currentTime := 3, progress := 0, duration := 0
    loop := { a := some 1, b := some 2, active := false }
    subtitles := [], subtitleOffset := 0, subtitleText := "" }

/-- Witness theorem for C4. -/
theorem c4_witness :
    (handleTimeUpdate c4StateA none).currentTime = 1
    ∧ (handleTimeUpdate c4StateB none).currentTime = 3 :=
  ⟨(c4_ab_loop c4StateA none).1 1 2 rfl rfl rfl (by norm_num [c4StateA]),
   (c4_ab_loop c4StateB none).2 (Or.inl rfl)⟩

/- ### Claim C5: volume clamp and gain boost -/

/-- The volume invariant maintained by `adjustVolume`. -/
def audioInv (s : AudioState) : Prop :=
  0 ≤ s.volume ∧ s.volume ≤ 2
    ∧ s.elementVolume = min 1 s.volume ∧ s.gain = max 1 s.volume

lemma adjustVolume_audioInv (s : AudioState) (delta : ℚ) :
    audioInv (adjustVolume s delta) := by
  unfold audioInv adjustVolume
  refine ⟨le_max_left 0 _, max_le (by norm_num) (min_le_left 2 _), rfl, rfl⟩

lemma audioInv_foldl :
    ∀ (deltas : List ℚ) (s : AudioState), audioInv s →
      audioInv (deltas.foldl adjustVolume s) := by
  intro deltas
  induction deltas with
  | nil => intro s hs; exact hs
  | cons dlt rest ih =>
      intro s _
      exact ih (adjustVolume s dlt) (adjustVolume_audioInv s dlt)

lemma audioInv_init : audioInv initAudioState := by
  unfold audioInv initAudioState
  norm_num

/-- Claim C5 (confirmed): for every sequence of `adjustVolume` deltas from the
initial player audio state, the stored volume stays within `[0, 2]`, the media
element native volume equals `min(1, volume)`, the gain node value equals
`max(1, volume)`; hence volumes at or below unity leave the gain at `1`, and
volumes at or above unity pin the native volume at `1` (the boost is realised
by the gain node alone). -/
theorem c5_volume_clamp_and_gain (deltas : List ℚ) :
    0 ≤ (runVolume deltas).volume ∧ (runVolume deltas).volume ≤ 2
    ∧ (runVolume deltas).elementVolume = min 1 (runVolume deltas).volume
    ∧ (runVolume deltas).gain = max 1 (runVolume deltas).volume
    ∧ ((runVolume deltas).volume ≤ 1 → (runVolume deltas).gain = 1)
    ∧ (1 ≤ (runVolume deltas).volume → (runVolume deltas).elementVolume = 1) := by
  have h : audioInv (runVolume deltas) :=
    audioInv_foldl deltas initAudioState audioInv_init
  unfold audioInv at h
  obtain ⟨h0, h2, hel, hg⟩ := h
  refine ⟨h0, h2, hel, hg, ?_, ?_⟩
  · intro hle
    rw [hg]
    exact max_eq_left hle
  · intro hge
    rw [hel]
    exact min_eq_left hge

/-- Witness theorem for C5: lowering the volume to 50% leaves the gain at
unity, and raising it to 200% pins the native element volume at `1`. -/
theorem c5_witness :
    (runVolume [-(1 : ℚ) / 2]).gain = 1
    ∧ (runVolume [(3 : ℚ) / 2]).elementVolume = 1 :=
  ⟨(c5_volume_clamp_and_gain [-(1 : ℚ) / 2]).2.2.2.2.1 (by norm_num
      [runVolume, adjustVolume, initAudioState]),
   (c5_volume_clamp_and_gain [(3 : ℚ) / 2]).2.2.2.2.2 (by norm_num
      [runVolume, adjustVolume, initAudioState])⟩

/- ### Claim C6: subtitle synchronisation -/

/-- The claim-side containment predicate: the offset-shifted cue interval
`[start + offset, end + offset]` (milliseconds) contains `t * 1000`. -/
def inShiftedInterval (off : ℤ) (t : ℚ) (c : Cue) : Prop :=
  ((c.start + off : ℤ) : ℚ) ≤ t * 1000 ∧ t * 1000 ≤ ((c.stop + off : ℤ) : ℚ)

instance (off : ℤ) (t : ℚ) (c : Cue) : Decidable (inShiftedInterval off t c) := by
  unfold inShiftedInterval
  infer_instance

lemma cueMatches_iff (off : ℤ) (t : ℚ) (c : Cue) :
    cueMatches off t c = true ↔ inShiftedInterval off t c := by
  unfold cueMatches inShiftedInterval
  simp

lemma cueMatches_eq_false (off : ℤ) (t : ℚ) (c : Cue)
    (h : ¬ inShiftedInterval off t c) : cueMatches off t c = false := by
  rw [← Bool.not_eq_true, cueMatches_iff]
  exact h

lemma find?_first_match {α : Type} (p : α → Bool) :
    ∀ (pre : List α) (c : α) (post : List α),
      (∀ x ∈ pre, p x = false) → p c = true →
      (pre ++ c :: post).find? p = some c := by
  intro pre c post hpre hc
  induction pre with
  | nil => simp [List.find?_cons_of_pos, hc]
  | cons a l ih =>
      have ha : p a = false := hpre a (by simp)
      rw [List.cons_append, List.find?_cons_of_neg _ (by simp [ha])]
      exact ih (fun x hx => hpre x (by simp [hx]))

/-- Claim C6 (confirmed): in every `handleTimeUpdate` step at current time `t`
seconds, the displayed subtitle text is the text of the first loaded cue whose
offset-shifted interval `[start + offset, end + offset]` (milliseconds)
contains `t * 1000`, and the empty string when no cue matches. -/
theorem c6_subtitle_sync (s : PlayerState) (d : Option ℚ) :
    ((∀ c ∈ s.subtitles,
        ¬ inShiftedInterval s.subtitleOffset s.currentTime c) →
      (handleTimeUpdate s d).subtitleText = "")
    ∧ (∀ pre c post, s.subtitles = pre ++ c :: post →
        (∀ x ∈ pre, ¬ inShiftedInterval s.subtitleOffset s.currentTime x) →
        inShiftedInterval s.subtitleOffset s.currentTime c →
        (handleTimeUpdate s d).subtitleText = c.text) := by
  constructor
  · intro h
    have hnone : s.subtitles.find? (cueMatches s.subtitleOffset s.currentTime)
        = none := by
      rw [List.find?_eq_none]
      intro x hx
      simp [cueMatches_eq_false _ _ _ (h x hx)]
    simp [handleTimeUpdate, hnone]
  · intro pre c post hsplit hpre hc
    have hfound : s.subtitles.find? (cueMatches s.subtitleOffset s.currentTime)
        = some c := by
      rw [hsplit]
      exact find?_first_match _ pre c post
        (fun x hx => cueMatches_eq_false _ _ _ (hpre x hx))
        ((cueMatches_iff _ _ _).mpr hc)
    simp [handleTimeUpdate, hfound]

/-- Concrete cue for the C6 witness that does not contain `t = 2` seconds. -/
def c6CueA : Cue := { start := 0, stop := 1000, text := "one" }

/-- Concrete cue for the C6 witness that contains `t = 2` seconds. -/
def c6CueB : Cue := { start := 1500, stop := 2500, text := "two" }

/-- Concrete player state for the C6 witness. -/
def c6State : PlayerState :=
  { currentTime := 2, progress := 0, duration := 0
    loop := { a := none, b := none, active := false }
    subtitles := [c6CueA, c6CueB], subtitleOffset := 0, subtitleText := "" }

/-- Witness theorem for C6: at `t = 2` the second cue (the first one whose
shifted interval contains `2000` ms) is displayed. -/
theorem c6_witness : (handleTimeUpdate c6State none).subtitleText = "two" :=
  (c6_subtitle_sync c6State none).2 [c6CueA] c6CueB [] rfl
    (by
      intro x hx
      simp only [List.mem_singleton] at hx
      subst hx
      norm_num [inShiftedInterval, c6CueA, c6State])
    (by norm_num [inShiftedInterval, c6CueB, c6State])

/- ### Claim C7 and C8: Veo generation polling and result retrieval -/

lemma pollLoop_done (next : Nat → VeoOperation) :
    ∀ (fuel k : Nat) (op : VeoOperation), op.done = true →
      pollLoop next k op fuel = some (op, []) := by
  intro fuel k op hd
  cases fuel with
  | zero => unfold pollLoop; rw [hd]; rfl
  | succ f => unfold pollLoop; rw [hd]; rfl

lemma pollLoop_sound (next : Nat → VeoOperation) :
    ∀ (fuel k : Nat) (op final : VeoOperation) (evs : List PollEvent),
      pollLoop next k op fuel = some (final, evs) →
      final.done = true ∧ ∃ n, evs = pollTrace n := by
  intro fuel
  induction fuel with
  | zero =>
      intro k op final evs h
      unfold pollLoop at h
      cases hd : op.done with
      | false => rw [hd] at h; simp at h
      | true =>
          rw [hd] at h
          simp at h
          exact ⟨h.1 ▸ hd, 0, h.2⟩
  | succ f ih =>
      intro k op final evs h
      unfold pollLoop at h
      cases hd : op.done with
      | true =>
          rw [hd] at h
          simp at h
          exact ⟨h.1 ▸ hd, 0, h.2⟩
      | false =>
          rw [hd] at h
          rw [if_neg Bool.false_ne_true] at h
          cases hrec : pollLoop next (k + 1) (next k) f with
          | none => rw [hrec] at h; simp at h
          | some pr =>
              obtain ⟨fin2, evs2⟩ := pr
              rw [hrec] at h
              simp only [Option.some.injEq, Prod.mk.injEq] at h
              obtain ⟨h1, h2⟩ := h
              obtain ⟨hdone, n, hn⟩ := ih (k + 1) (next k) fin2 evs2 hrec
              refine ⟨h1 ▸ hdone, n + 1, ?_⟩
              rw [← h2, hn]
              rfl

lemma finishVideo_some {β : Type} (apiKey : String) (fetchBlob : String → β)
    (cou : β → String) (op : VeoOperation) (uri : String)
    (h : op.responseUri = some uri) :
    finishVideo apiKey fetchBlob cou op =
      ([uri ++ "&key=" ++ apiKey],
       some (cou (fetchBlob (uri ++ "&key=" ++ apiKey)))) := by
  unfold finishVideo
  rw [h]

lemma finishVideo_none {β : Type} (apiKey : String) (fetchBlob : String → β)
    (cou : β → String) (op : VeoOperation)
    (h : op.responseUri = none) :
    finishVideo apiKey fetchBlob cou op = ([], none) := by
  unfold finishVideo
  rw [h]

/-- Claim C7 (confirmed): whenever a `generateVeoVideo` run finishes, the
operation it reads the result from has its `done` flag set, the loop's
suspension trace consists of exactly one five-second wait before each re-query
(`pollTrace n` for the number `n` of iterations), and an operation that is
already done is never re-queried at all. -/
theorem c7_poll_until_done {β : Type} (next : Nat → VeoOperation)
    (op0 : VeoOperation) (fuel : Nat) (apiKey : String)
    (fetchBlob : String → β) (cou : β → String)
    (final : VeoOperation) (evs : List PollEvent) (fetches : List String)
    (result : Option String)
    (h : generateVeoVideoRun next op0 fuel apiKey fetchBlob cou
          = some (final, evs, fetches, result)) :
    final.done = true
    ∧ (∃ n, evs = pollTrace n)
    ∧ (op0.done = true → final = op0 ∧ evs = []) := by
  unfold generateVeoVideoRun at h
  cases hpoll : pollLoop next 0 op0 fuel with
  | none => rw [hpoll] at h; simp at h
  | some pr =>
      obtain ⟨fin2, evs2⟩ := pr
      rw [hpoll] at h
      simp only [Option.some.injEq, Prod.mk.injEq] at h
      obtain ⟨h1, h2, h3, h4⟩ := h
      obtain ⟨hdone, n, hn⟩ := pollLoop_sound next fuel 0 op0 fin2 evs2 hpoll
      refine ⟨h1 ▸ hdone, ⟨n, h2 ▸ hn⟩, ?_⟩
      intro hd0
      have hstop := pollLoop_done next fuel 0 op0 hd0
      rw [hstop] at hpoll
      simp only [Option.some.injEq, Prod.mk.injEq] at hpoll
      obtain ⟨ha, hb⟩ := hpoll
      constructor
      · rw [← h1]; exact ha.symm
      · rw [← h2]; exact hb.symm

/-- Claim C8 (confirmed): when a `generateVeoVideo` run finishes and the
completed operation carries a video URI, exactly that URI with the API key
appended is fetched, exactly once, and the run returns the object URL of the
fetched blob; when the completed operation carries no URI, nothing is fetched
and the run returns `null`. -/
theorem c8_signed_url_fetch {β : Type} (next : Nat → VeoOperation)
    (op0 : VeoOperation) (fuel : Nat) (apiKey : String)
    (fetchBlob : String → β) (cou : β → String)
    (final : VeoOperation) (evs : List PollEvent) (fetches : List String)
    (result : Option String)
    (h : generateVeoVideoRun next op0 fuel apiKey fetchBlob cou
          = some (final, evs, fetches, result)) :
    (∀ uri, final.responseUri = some uri →
        fetches = [uri ++ "&key=" ++ apiKey]
        ∧ result = some (cou (fetchBlob (uri ++ "&key=" ++ apiKey))))
    ∧ (final.responseUri = none → fetches = [] ∧ result = none) := by
  unfold generateVeoVideoRun at h
  cases hpoll : pollLoop next 0 op0 fuel with
  | none => rw [hpoll] at h; simp at h
  | some pr =>
      obtain ⟨fin2, evs2⟩ := pr
      rw [hpoll] at h
      simp only [Option.some.injEq, Prod.mk.injEq] at h
      obtain ⟨h1, h2, h3, h4⟩ := h
      have hfr : finishVideo apiKey fetchBlob cou fin2 = (fetches, result) := by
        rw [← h3, ← h4]
      constructor
      · intro uri huri
        have huri2 : fin2.responseUri = some uri := by rw [h1]; exact huri
        rw [finishVideo_some apiKey fetchBlob cou fin2 uri huri2] at hfr
        simp only [Prod.mk.injEq] at hfr
        exact ⟨hfr.1.symm, hfr.2.symm⟩
      · intro hnone
        have hnone2 : fin2.responseUri = none := by rw [h1]; exact hnone
        rw [finishVideo_none apiKey fetchBlob cou fin2 hnone2] at hfr
        simp only [Prod.mk.injEq] at hfr
        exact ⟨hfr.1.symm, hfr.2.symm⟩

/-- Completed operation used by the C7 and C8 witnesses. -/
def c7final : VeoOperation :=
  { done := true, responseUri := some "https://veo/video?alt=media" }

/-- Re-query oracle for the C7 and C8 witnesses: the first re-query already
reports completion. -/
def c7next : Nat → VeoOperation := fun _ => c7final

/-- Initial, not-yet-done operation for the C7 and C8 witnesses. -/
def c7op0 : VeoOperation := { done := false, responseUri := none }

/-- Witness theorem for C7: a run that needs one re-query waits five seconds
exactly once before it, and ends on a done operation. -/
theorem c7_witness :
    c7final.done = true
    ∧ (∃ n, pollTrace 1 = pollTrace n)
    ∧ (c7op0.done = true → c7final = c7op0 ∧ pollTrace 1 = []) :=
  c7_poll_until_done c7next c7op0 3 "KEY" (fun u => u)
    (fun b => String.append "blob:" b) c7final (pollTrace 1)
    ["https://veo/video?alt=media&key=KEY"]
    (some "blob:https://veo/video?alt=media&key=KEY") rfl

/-- Witness theorem for C8: the completed operation's URI is fetched exactly
once with the key appended, and the object URL of the blob is returned. -/
theorem c8_witness :
    (∀ uri, c7final.responseUri = some uri →
        ["https://veo/video?alt=media&key=KEY"] = [uri ++ "&key=" ++ "KEY"]
        ∧ (some "blob:https://veo/video?alt=media&key=KEY" : Option String)
            = some (String.append "blob:" (uri ++ "&key=" ++ "KEY")))
    ∧ (c7final.responseUri = none →
        ["https://veo/video?alt=media&key=KEY"] = ([] : List String)
        ∧ (some "blob:https://veo/video?alt=media&key=KEY" : Option String)
            = none) :=
  c8_signed_url_fetch c7next c7op0 3 "KEY" (fun u => u)
    (fun b => String.append "blob:" b) c7final (pollTrace 1)
    ["https://veo/video?alt=media&key=KEY"]
    (some "blob:https://veo/video?alt=media&key=KEY") rfl

/- ### Claim C1: empty-prompt clicks -/

/-- Veo Studio state with an empty prompt but a reference image set, refuting
the claim that an empty prompt always makes the generate click a no-op. -/
def c1VeoState : VeoStudioState :=
  { prompt := ""
    isGenerating := false
    error := none
    inputImage := some "data:image/png;base64,iVBOR"
    config := { aspect := "16:9", resolution := "720p" } }

/-- Claim C1 counterexample: in the Veo Studio, clicking generate with an empty
prompt while a reference image is set issues a generation request and changes
the component state, so the click is not a no-op. -/
theorem c1_counterexample :
    c1VeoState.prompt = ""
    ∧ (handleGenerate c1VeoState (CallOutcome.ok none)).2.1 ≠ []
    ∧ (handleGenerate c1VeoState (CallOutcome.ok none)).1 ≠ c1VeoState := by
  refine ⟨rfl, ?_, ?_⟩ <;> decide

/-- Claim C1 (corrected): clicking generate or edit in the Image Studio with an
empty prompt is a no-op — no request is issued, no callback fires, and the
component state is unchanged; in the Veo Studio the same holds only when no
reference image is set (with a reference image, an empty-prompt click starts an
image-to-video generation). -/
theorem c1_empty_prompt_noop :
    (∀ (s : ImageStudioState) (o : CallOutcome (Option String)),
        s.prompt = "" → handleAction s o = (s, [], []))
    ∧ (∀ (s : VeoStudioState) (o : CallOutcome (Option String)),
        s.prompt = "" → s.inputImage = none →
          handleGenerate s o = (s, [], [])) := by
  constructor
  · intro s o h
    simp [handleAction, h]
  · intro s o h1 h2
    simp [handleGenerate, h1, h2]

/-- Image Studio state for the C1 witness. -/
def c1ImgState : ImageStudioState :=
  { prompt := ""
    isProcessing := false
    activeTab := ImageTab.generate
    selectedImageForEdit := none
    error := none
    config := { aspect := "1:1", size := "1K" } }

/-- Veo Studio state for the C1 witness: empty prompt, no reference image. -/
def c1VeoEmpty : VeoStudioState :=
  { prompt := ""
    isGenerating := false
    error := none
    inputImage := none
    config := { aspect := "16:9", resolution := "720p" } }

/-- Witness theorem for the corrected C1. -/
theorem c1_witness :
    handleAction c1ImgState (CallOutcome.ok none) = (c1ImgState, [], [])
    ∧ handleGenerate c1VeoEmpty (CallOutcome.ok none) = (c1VeoEmpty, [], []) :=
  ⟨c1_empty_prompt_noop.1 c1ImgState (CallOutcome.ok none) rfl,
   c1_empty_prompt_noop.2 c1VeoEmpty (CallOutcome.ok none) rfl rfl⟩

/- ### Claim C2: failure surfacing -/

/-- Chat panel state for the C2 counterexample: nothing playing, one greeting
message. -/
def c2ChatState : ChatState :=
  { messages :=
      [{ id := "welcome", role := Role.model, text := "Hello!", timestamp := 0 }]
    input := ""
    isThinking := false
    contextImage := none
    playingMessageId := none }

/-- The message whose read-aloud button is clicked in the C2 counterexample. -/
def c2Msg : ChatMessage :=
  { id := "welcome", role := Role.model, text := "Hello!", timestamp := 0 }

/-- Claim C2 counterexample: a speech-synthesis request that throws is caught
inside `generateSpeech` (which only logs to the console and returns `null`),
and the click handler then leaves the component state exactly as it was — no
user-visible message is produced for this failing external request. -/
theorem c2_counterexample :
    generateSpeech (CallOutcome.error "network error" : CallOutcome (Option Nat))
        = none
    ∧ handleSpeak c2ChatState c2Msg
        (CallOutcome.error "network error" : CallOutcome (Option Nat))
        = c2ChatState := by
  exact ⟨rfl, by decide⟩

/-- Claim C2 (corrected): failures of the chat-completion, image-generation,
image-editing and video-generation requests are caught at their call sites and
surfaced as user-visible messages (an appended error chat message, or the error
banner state); a speech-synthesis failure, however, is caught inside
`generateSpeech`, only logged to the console, and surfaces no user-visible
message — the chat transcript is unchanged. -/
theorem c2_failure_surfacing :
    (∀ (now1 now2 : Nat) (s : ChatState) (e : String),
        ¬(s.input.trim = "" ∧ s.contextImage = none) →
        (handleSend now1 now2 true s (CallOutcome.error e)).1.messages =
          s.messages ++
            [userMsgOf now1 s,
             { id := toString now2, role := Role.model, text := chatErrorText,
               timestamp := now2 }])
    ∧ (∀ (s : ImageStudioState) (e : String), s.prompt ≠ "" →
        (handleAction s (CallOutcome.error e)).1.error.isSome = true)
    ∧ (∀ (s : VeoStudioState) (e : String),
        ¬(s.prompt = "" ∧ s.inputImage = none) →
        (handleGenerate s (CallOutcome.error e)).1.error.isSome = true)
    ∧ (∀ (α : Type) (e : String),
        generateSpeech (CallOutcome.error e : CallOutcome (Option α)) = none)
    ∧ (∀ (s : ChatState) (m : ChatMessage) (e : String),
        (handleSpeak s m (CallOutcome.error e : CallOutcome (Option Nat))).messages
          = s.messages) := by
  refine ⟨?_, ?_, ?_, ?_, ?_⟩
  · intro now1 now2 s e h
    simp [handleSend, h]
  · intro s e h
    cases htab : s.activeTab with
    | generate => simp [handleAction, h, htab]
    | edit =>
        cases hsel : s.selectedImageForEdit with
        | none => simp [handleAction, h, htab, hsel]
        | some img => simp [handleAction, h, htab, hsel]
  · intro s e h
    simp [handleGenerate, h]
  · intro α e
    rfl
  · intro s m e
    unfold handleSpeak
    by_cases hp : s.playingMessageId = some m.id
    · simp [hp]
    · simp [hp, generateSpeech]

/-- Chat panel state for the C2 witness send. -/
def c2SendState : ChatState :=
  { messages := []
    input := "hi"
    isThinking := false
    contextImage := some "data:image/jpeg;base64,ctx"
    playingMessageId := none }

/-- Image Studio state for the C2 witness. -/
def c2ImgState : ImageStudioState :=
  { prompt := "a cat"
    isProcessing := false
    activeTab := ImageTab.generate
    selectedImageForEdit := none
    error := none
    config := { aspect := "1:1", size := "1K" } }

/-- Veo Studio state for the C2 witness. -/
def c2VeoState : VeoStudioState :=
  { prompt := "a dog"
    isGenerating := false
    error := none
    inputImage := none
    config := { aspect := "16:9", resolution := "720p" } }

/-- Witness theorem for the corrected C2. -/
theorem c2_witness :
    (handleSend 10 11 true c2SendState (CallOutcome.error "boom")).1.messages =
      c2SendState.messages ++
        [userMsgOf 10 c2SendState,
         { id := toString 11, role := Role.model, text := chatErrorText,
           timestamp := 11 }]
    ∧ (handleAction c2ImgState (CallOutcome.error "boom")).1.error.isSome = true
    ∧ (handleGenerate c2VeoState (CallOutcome.error "boom")).1.error.isSome
        = true
    ∧ generateSpeech (CallOutcome.error "boom" : CallOutcome (Option Nat))
        = none
    ∧ (handleSpeak c2ChatState c2Msg
        (CallOutcome.error "boom" : CallOutcome (Option Nat))).messages
        = c2ChatState.messages :=
  ⟨c2_failure_surfacing.1 10 11 c2SendState "boom"
      (by intro hcon; simp [c2SendState] at hcon),
   c2_failure_surfacing.2.1 c2ImgState "boom" (by decide),
   c2_failure_surfacing.2.2.1 c2VeoState "boom" (by decide),
   c2_failure_surfacing.2.2.2.1 Nat "boom",
   c2_failure_surfacing.2.2.2.2 c2ChatState c2Msg "boom"⟩

/- ### Claim C9: frame capture -/

/-- Video media item for the C9 counterexample and witness. -/
def c9Media : MediaItem :=
  { id := "v1", name := "clip.mp4", url := "blob:clip",
    type := MediaType.video, mimeType := some "video/mp4" }

/-- Claim C9 counterexample: with the player view shown, the player ref
mounted, a video item current, and the 2D canvas context available, the
capture still returns `null` when the underlying `<video>` element ref is not
mounted — a `null` case the claim's condition list omits, contradicting its
"otherwise a JPEG data URL" clause. -/
theorem c9_counterexample :
    isVideoMedia (some c9Media) = true
    ∧ handleCaptureContext ViewMode.PLAYER true none (some c9Media) true
        (fun _ => "data:image/jpeg;base64,AA") = none := by
  exact ⟨by decide, rfl⟩

/-- Claim C9 (corrected): the capture pipeline returns `null` exactly when the
app is not showing the Player view, or the player ref is unmounted, or the
`<video>` element ref is unmounted, or the current media item is absent or not
of kind video, or the canvas 2D context is unavailable; otherwise it returns
the JPEG data URL (`canvas.toDataURL('image/jpeg')`, modelled by `enc`) of the
current video frame. -/
theorem c9_capture_null_exactly (cv : ViewMode) (pm : Bool)
    (videoEl : Option VideoElement) (media : Option MediaItem) (ctx : Bool)
    (enc : VideoElement → String) :
    (handleCaptureContext cv pm videoEl media ctx enc = none ↔
      cv ≠ ViewMode.PLAYER ∨ pm = false ∨ videoEl = none
        ∨ isVideoMedia media = false ∨ ctx = false)
    ∧ (∀ v, cv = ViewMode.PLAYER → pm = true → videoEl = some v →
        isVideoMedia media = true → ctx = true →
        handleCaptureContext cv pm videoEl media ctx enc = some (enc v)) := by
  constructor
  · constructor
    · intro h
      by_cases hcv : cv = ViewMode.PLAYER
      · by_cases hpm : pm = true
        · cases videoEl with
          | none => exact Or.inr (Or.inr (Or.inl rfl))
          | some v =>
              cases hv : isVideoMedia media with
              | false => exact Or.inr (Or.inr (Or.inr (Or.inl rfl)))
              | true =>
                  cases hctx : ctx with
                  | false => exact Or.inr (Or.inr (Or.inr (Or.inr rfl)))
                  | true =>
                      exfalso
                      unfold handleCaptureContext at h
                      rw [if_pos ⟨hcv, hpm⟩] at h
                      unfold captureFrame at h
                      rw [hv, hctx] at h
                      simp at h
        · exact Or.inr (Or.inl (by revert hpm; cases pm <;> simp))
      · exact Or.inl hcv
    · intro h
      by_cases hg : cv = ViewMode.PLAYER ∧ pm = true
      · unfold handleCaptureContext
        rw [if_pos hg]
        rcases h with h | h | h | h | h
        · exact absurd hg.1 h
        · rw [h] at hg
          exact absurd hg.2 Bool.false_ne_true
        · subst h
          rfl
        · cases videoEl with
          | none => rfl
          | some v =>
              unfold captureFrame
              rw [h]
              rfl
        · subst h
          cases videoEl with
          | none => rfl
          | some v =>
              cases hv : isVideoMedia media with
              | false =>
                  unfold captureFrame
                  rw [hv]
                  rfl
              | true =>
                  unfold captureFrame
                  rw [hv]
                  rfl
      · unfold handleCaptureContext
        rw [if_neg hg]
  · intro v hcv hpm hel hv hctx
    subst hel
    unfold handleCaptureContext
    rw [if_pos ⟨hcv, hpm⟩]
    unfold captureFrame
    rw [hv, hctx]
    rfl

/-- Witness theorem for the corrected C9: with everything mounted and a video
current, the capture returns the JPEG data URL of the frame. -/
theorem c9_witness :
    handleCaptureContext ViewMode.PLAYER true
        (some { videoWidth := 640, videoHeight := 360 }) (some c9Media) true
        (fun _ => "data:image/jpeg;base64,FRAME")
      = some "data:image/jpeg;base64,FRAME" :=
  (c9_capture_null_exactly ViewMode.PLAYER true
      (some { videoWidth := 640, videoHeight := 360 }) (some c9Media) true
      (fun _ => "data:image/jpeg;base64,FRAME")).2
    { videoWidth := 640, videoHeight := 360 } rfl rfl rfl (by decide) rfl
